import Mathlib

/-!
Shallow embedding of the pod/container conversion layer of the k2d repository
(file `internal/adapter/converter/pod.go`), together with theorems settling the
frozen claims about it.

Go-specific behaviours are made explicit:
* Go functions that can panic (out-of-range indexing, nil-pointer dereference)
  are modelled with an outcome type `GoRes` that has a dedicated `panic`
  constructor (for the reverse converter, which has no error return, `Option`
  suffices: `none` models a panic).
* Go maps are modelled as association lists; `m[k]` reads default to the zero
  value (the empty string) and `m[k] = v` replaces an existing entry in place.
  Go's map iteration order is nondeterministic; the model iterates in list
  order, and no theorem below depends on that order.
* The external secret/config-map stores are injected as function fields of the
  converter structure, mirroring the store interface the Go code consumes.
-/

/-- Outcome of running a Go function that returns `(T, error)` and may panic.
`ok` models a nil error, `err` models a non-nil error (in which case the Go
code under study always returns the zero value of `T` alongside the error, so
no partially built `T` accompanies `err`), `panic` models a runtime panic. -/
inductive GoRes (α : Type) where
  | ok : α → GoRes α
  | err : String → GoRes α
  | panic : GoRes α
deriving DecidableEq, Repr

/-- Result of a Go call returning `(T, error)` with no panic possibility,
modelling the injected store interface methods. -/
abbrev GoErr (α : Type) := Except String α

/-- Equality of store results is decidable, so witnesses can be checked by
evaluation. -/
instance {ε α : Type} [DecidableEq ε] [DecidableEq α] :
    DecidableEq (Except ε α) := fun a b =>
  match a, b with
  | .error e1, .error e2 =>
    if h : e1 = e2 then isTrue (by rw [h]) else isFalse (by simp [h])
  | .error _, .ok _ => isFalse (by simp)
  | .ok _, .error _ => isFalse (by simp)
  | .ok v1, .ok v2 =>
    if h : v1 = v2 then isTrue (by rw [h]) else isFalse (by simp [h])

/-- Go's `strings.TrimPrefix`: drop one occurrence of the prefix if present. -/
def trimPrefixGo (s pre : String) : String :=
  if s.startsWith pre then s.drop pre.length else s

/-- Go map read `m[k]` on a `map[string]string`: the zero value `""` when the
key is absent. -/
def goMapGet (m : List (String × String)) (k : String) : String :=
  match m.find? (fun p => p.1 == k) with
  | some p => p.2
  | none => ""

/-- Go map assignment `m[k] = v`: replace in place when the key exists,
otherwise add the entry. -/
def mapAssign {α : Type} (m : List (String × α)) (k : String) (v : α) :
    List (String × α) :=
  if (m.find? (fun p => p.1 == k)).isSome then
    m.map (fun p => if p.1 == k then (p.1, v) else p)
  else m ++ [(k, v)]

/-- Go set insertion on a set-valued map modelled as its key list. -/
def setInsert (s : List String) (k : String) : List String :=
  if s.contains k then s else s ++ [k]

/-- Stack-based processing of path components, the core of Go's `path.Clean`:
`""` and `"."` components vanish, `".."` pops a non-`".."` component (and
vanishes at the root). The accumulated stack is kept reversed. -/
def cleanStack (rooted : Bool) : List String → List String → List String
  | [], stack => stack
  | c :: rest, stack =>
    if c == "" || c == "." then cleanStack rooted rest stack
    else if c == ".." then
      match stack with
      | [] => if rooted then cleanStack rooted rest [] else cleanStack rooted rest [".."]
      | top :: stack2 =>
        if top == ".." then cleanStack rooted rest (".." :: top :: stack2)
        else cleanStack rooted rest stack2
    else cleanStack rooted rest (c :: stack)

/-- Go's `path.Clean` (lexical path simplification). -/
def pathClean (p : String) : String :=
  if p == "" then "."
  else
    let rooted := p.startsWith "/"
    let comps := (cleanStack rooted (p.splitOn "/") []).reverse
    let out := (if rooted then "/" else "") ++ String.intercalate "/" comps
    if out == "" then "." else out

/-- Go's `path.Join` restricted to two elements, as used by the converter:
join with `"/"` (skipping empty elements) and clean the result. -/
def pathJoin (a b : String) : String :=
  if a == "" && b == "" then ""
  else if a == "" then pathClean b
  else if b == "" then pathClean a
  else pathClean (a ++ "/" ++ b)

/-- Base-10 digit parsing over a character list, the behaviour of
`strconv.ParseUint` on the digit strings `strconv.Itoa` produces. -/
def digitsToNat? : List Char → Nat → Option Nat
  | [], acc => some acc
  | c :: rest, acc =>
    if 48 ≤ c.toNat ∧ c.toNat ≤ 57 then
      digitsToNat? rest (acc * 10 + (c.toNat - 48))
    else none

/-- Models the `nat.ParsePortRangeToInt` validation of the third-party
`go-connections` library on the output of `strconv.Itoa`: the string of a
negative number contains a dash and fails to parse, and a value above 65535
exceeds the 16-bit parse bound; otherwise the numeric value is returned. -/
def parseGoPort (s : String) : GoErr Int :=
  if s.data = [] then .error "empty string specified for ports"
  else if s.data.contains '-' then .error ("invalid port range " ++ s)
  else
    match digitsToNat? s.data 0 with
    | some n => if n ≤ 65535 then .ok (Int.ofNat n) else .error ("invalid port " ++ s)
    | none => .error ("invalid port " ++ s)

/-- Models `nat.NewPort(proto, port)` on `strconv.Itoa` output: validate the
port and build the `"<port>/<proto>"` key. -/
def newPort (proto : String) (port : String) : GoErr String :=
  match parseGoPort port with
  | .error e => .error e
  | .ok n => .ok (toString n ++ "/" ++ proto)

/- ### Kubernetes-side input types (the fields the converter reads) -/

/-- The two accessors of an `apimachinery` resource quantity that the code
calls: `MilliValue()` and `Value()`. -/
structure Quantity where
  milliValue : Int
  value : Int
deriving DecidableEq, Repr

/-- `core.ContainerPort` (fields used: HostPort, ContainerPort, Protocol). -/
structure ContainerPort where
  hostPort : Int
  containerPort : Int
  protocol : String
deriving DecidableEq, Repr

/-- A `core.ConfigMapKeySelector` / `core.SecretKeySelector`: resource name
plus the key to read. -/
structure KeySelector where
  name : String
  key : String
deriving DecidableEq, Repr

/-- `core.EnvVarSource` (fields used: ConfigMapKeyRef, SecretKeyRef). -/
structure EnvVarSource where
  configMapKeyRef : Option KeySelector
  secretKeyRef : Option KeySelector
deriving DecidableEq, Repr

/-- `core.EnvVar`. -/
structure EnvVar where
  name : String
  value : String
  valueFrom : Option EnvVarSource
deriving DecidableEq, Repr

/-- `core.EnvFromSource`: the names of the referenced config map / secret. -/
structure EnvFromSource where
  configMapRef : Option String
  secretRef : Option String
deriving DecidableEq, Repr

/-- `core.SecurityContext` (field used: Privileged). -/
structure SecurityContext where
  privileged : Option Bool
deriving DecidableEq, Repr

/-- `core.PodSecurityContext` (fields used: RunAsUser, RunAsGroup). -/
structure PodSecurityContext where
  runAsUser : Option Int
  runAsGroup : Option Int
deriving DecidableEq, Repr

/-- `core.ConfigMapVolumeSource` (field used: Name). -/
structure ConfigMapVolumeSource where
  name : String
deriving DecidableEq, Repr

/-- `core.SecretVolumeSource` (field used: SecretName). -/
structure SecretVolumeSource where
  secretName : String
deriving DecidableEq, Repr

/-- `core.HostPathVolumeSource` (field used: Path). -/
structure HostPathVolumeSource where
  path : String
deriving DecidableEq, Repr

/-- `core.VolumeSource` with the three source kinds the code handles. -/
structure VolumeSource where
  configMap : Option ConfigMapVolumeSource
  secret : Option SecretVolumeSource
  hostPath : Option HostPathVolumeSource
deriving DecidableEq, Repr

/-- `core.Volume`. In Go the `VolumeSource` is embedded, so
`volume.HostPath` means `volume.volumeSource.hostPath` here. -/
structure Volume where
  name : String
  volumeSource : VolumeSource
deriving DecidableEq, Repr

/-- `core.VolumeMount` (fields used: Name, MountPath). -/
structure VolumeMount where
  name : String
  mountPath : String
deriving DecidableEq, Repr

/-- `core.ResourceRequirements`: `Limits` and `Requests` are Go maps from
resource name to quantity; `none` models a nil map. -/
structure ResourceRequirements where
  limits : Option (List (String × Quantity))
  requests : Option (List (String × Quantity))
deriving DecidableEq, Repr

/-- `core.Container` (the fields the converter reads). -/
structure KContainer where
  name : String
  image : String
  command : List String
  args : List String
  ports : List ContainerPort
  env : List EnvVar
  envFrom : List EnvFromSource
  resources : ResourceRequirements
  volumeMounts : List VolumeMount
  securityContext : Option SecurityContext
deriving DecidableEq, Repr

/-- `core.PodSpec` (the fields the converter reads). -/
structure PodSpec where
  containers : List KContainer
  volumes : List Volume
  restartPolicy : String
  securityContext : Option PodSecurityContext
deriving DecidableEq, Repr

/- ### External resources and store interface -/

/-- A config map as the store returns it (field used: Data). -/
structure ConfigMap where
  data : List (String × String)
deriving DecidableEq, Repr

/-- A secret as the store returns it (field used: Data). -/
structure Secret where
  data : List (String × String)
deriving DecidableEq, Repr

/- ### Docker-side output types (the fields the converter writes) -/

/-- `nat.PortBinding`. -/
structure PortBinding where
  hostIP : String
  hostPort : String
deriving DecidableEq, Repr

/-- `container.Resources` (the four fields the converter writes). These are
plain integers whose Go zero value is 0. -/
structure Resources where
  cpuShares : Int
  memory : Int
  nanoCPUs : Int
  memoryReservation : Int
deriving DecidableEq, Repr

/-- The zero value of `container.Resources`. -/
def Resources.zero : Resources := ⟨0, 0, 0, 0⟩

/-- `container.Config` (the fields the converter writes). `exposedPorts`
models the `nat.PortSet` as its list of keys. -/
structure ContainerConfig where
  image : String
  labels : List (String × String)
  env : List String
  entrypoint : List String
  cmd : List String
  exposedPorts : List String
  user : String
deriving DecidableEq, Repr

/-- `container.HostConfig` (the fields the converter writes). `portBindings`
models the `nat.PortMap` as an association list. -/
structure HostConfig where
  extraHosts : List String
  binds : List String
  portBindings : List (String × List PortBinding)
  restartPolicyName : String
  privileged : Bool
  resources : Resources
deriving DecidableEq, Repr

/-- The output bundle `ContainerConfiguration`: execution config, host config
and the network attachment (the single key of the endpoints map). -/
structure ContainerConfiguration where
  containerConfig : ContainerConfig
  hostConfig : HostConfig
  networkEndpoints : List String
deriving DecidableEq, Repr

/-- Fixed well-known identifier from the `k2d` types package (defined outside
`src/`); the claims do not depend on its literal value. -/
def K2dServiceAccountSecretName : String := "k2d-serviceaccount"

/-- Fixed network name from the `k2d` types package (defined outside `src/`);
the claims do not depend on its literal value. -/
def K2DNetworkName : String := "k2d_net"

/-- Fixed label key from the `k2d` types package (defined outside `src/`);
the claims do not depend on its literal value. -/
def WorkloadLastAppliedConfigLabelKey : String :=
  "workload.k2d.io/last-applied-configuration"

/-- The converter: the server configuration it reads plus the injected store
interface (`GetSecret`, `GetSecretBinds`, `GetConfigMap`, `GetConfigMapBinds`).
Bind maps are association lists of (resource-relative path, host path). -/
structure DockerAPIConverter where
  serverIpAddr : String
  serverPort : Int
  getSecret : String → GoErr Secret
  getSecretBinds : Secret → GoErr (List (String × String))
  getConfigMap : String → GoErr ConfigMap
  getConfigMapBinds : ConfigMap → GoErr (List (String × String))

/- ### Reverse converter: `ConvertContainerToPod` -/

/-- `types.Container` (the fields the converter reads). -/
structure DockerContainer where
  names : List String
  image : String
  created : Int
  state : String
  id : String
  labels : List (String × String)
deriving DecidableEq, Repr

/-- The observed pod phase (`core.PodRunning` / `core.PodUnknown`). -/
inductive PodPhase where
  | running
  | unknown
deriving DecidableEq, Repr

/-- `core.ContainerStatus` (the fields the converter writes). `started` is a
pointer in Go, hence an `Option`; `runningStartedAt` models
`State.Running.StartedAt` (`none` when `State.Running` is nil). -/
structure ContainerStatus where
  name : String
  containerID : String
  restartCount : Int
  ready : Bool
  started : Option Bool
  runningStartedAt : Option Int
deriving DecidableEq, Repr

/-- The pod observation built by the reverse converter (the fields it sets). -/
structure Pod where
  name : String
  namespaceName : String
  creationTimestamp : Int
  lastAppliedAnnotation : String
  specContainerName : String
  specContainerImage : String
  phase : PodPhase
  containerStatuses : List ContainerStatus
deriving DecidableEq, Repr

/-- `ConvertContainerToPod`: derive a pod observation from a Docker container
descriptor. Go indexes `container.Names[0]` unconditionally, which panics on an
empty names list; `none` models that panic. -/
def ConvertContainerToPod (container : DockerContainer) : Option Pod :=
  match container.names with
  | [] => none
  | n0 :: _ =>
    let containerName := trimPrefixGo n0 "/"
    let containerState := container.state
    let pod : Pod := {
      name := containerName
      namespaceName := "default"
      creationTimestamp := container.created
      lastAppliedAnnotation := goMapGet container.labels WorkloadLastAppliedConfigLabelKey
      specContainerName := containerName
      specContainerImage := container.image
      phase := PodPhase.unknown
      containerStatuses := [{
        name := containerName
        containerID := container.id
        restartCount := 0
        ready := false
        started := none
        runningStartedAt := none }] }
    if containerState == "running" then
      some { pod with
        phase := PodPhase.running
        containerStatuses := [{
          name := containerName
          containerID := container.id
          restartCount := 0
          ready := true
          started := some true
          runningStartedAt := some container.created }] }
    else
      some { pod with phase := PodPhase.unknown }

/- ### Field mappers -/

/-- Signed 64-bit wrap-around: the int64 value Go arithmetic produces for an
integer, i.e. the representative of its class mod 2^64 lying in
[-2^63, 2^63). -/
def int64Wrap (n : Int) : Int :=
  (n + 2 ^ 63) % 2 ^ 64 - 2 ^ 63

/-- `setResourceRequirements`: build a fresh `container.Resources` from the
request/limit maps and store it in the host config. Iterating a nil map is
skipped; unrecognized resource names fall through the switch. The quantity
accessors return int64 values that are stored as they are; the only
arithmetic the function performs is the nano-CPU product
`int64(quantity.MilliValue()) * 1000000`, an int64 multiplication that wraps
on overflow, modelled by `int64Wrap`. -/
def setResourceRequirements (hostConfig : HostConfig)
    (resources : ResourceRequirements) : HostConfig :=
  let r0 := Resources.zero
  let r1 :=
    match resources.requests with
    | none => r0
    | some reqs =>
      reqs.foldl (fun r kv =>
        if kv.1 == "cpu" then { r with cpuShares := kv.2.milliValue }
        else if kv.1 == "memory" then { r with memoryReservation := kv.2.value }
        else r) r0
  let r2 :=
    match resources.limits with
    | none => r1
    | some lims =>
      lims.foldl (fun r kv =>
        if kv.1 == "cpu" then
          { r with nanoCPUs := int64Wrap (kv.2.milliValue * 1000000) }
        else if kv.1 == "memory" then { r with memory := kv.2.value }
        else r) r1
  { hostConfig with resources := r2 }

/-- `setServiceAccountTokenAndCACert`: fetch the well-known service-account
secret, enumerate its bind mappings, and append one
`"<hostPath>:<joined container path>"` bind per mapping. -/
def setServiceAccountTokenAndCACert (converter : DockerAPIConverter)
    (hostConfig : HostConfig) : GoRes HostConfig :=
  match converter.getSecret K2dServiceAccountSecretName with
  | .error e =>
    .err ("unable to get secret " ++ K2dServiceAccountSecretName ++ ": " ++ e)
  | .ok secret =>
    match converter.getSecretBinds secret with
    | .error e =>
      .err ("unable to get binds for secrets " ++ K2dServiceAccountSecretName ++ ": " ++ e)
    | .ok binds =>
      .ok ({ hostConfig with binds := (hostConfig.binds ++
        binds.map (fun p =>
          p.2 ++ ":" ++ pathJoin "/var/run/secrets/kubernetes.io/serviceaccount/" p.1)) })

/-- The loop body of `setHostPorts`, accumulating the port map and the exposed
port set across the port list. -/
def setHostPortsLoop (portMap : List (String × List PortBinding))
    (exposed : List String) :
    List ContainerPort → GoRes (List (String × List PortBinding) × List String)
  | [] => .ok (portMap, exposed)
  | port :: rest =>
    if port.hostPort ≠ 0 then
      match newPort port.protocol (toString port.containerPort) with
      | .error e => .err e
      | .ok containerPort =>
        setHostPortsLoop
          (mapAssign portMap containerPort
            [{ hostIP := "0.0.0.0", hostPort := toString port.hostPort }])
          (setInsert exposed containerPort) rest
    else setHostPortsLoop portMap exposed rest

/-- `setHostPorts`: ports with a non-zero host port are exposed and bound to
`0.0.0.0:<hostPort>`; the resulting map and set replace the config fields. -/
def setHostPorts (containerConfig : ContainerConfig) (hostConfig : HostConfig)
    (ports : List ContainerPort) : GoRes (ContainerConfig × HostConfig) :=
  match setHostPortsLoop [] [] ports with
  | .err e => .err e
  | .panic => .panic
  | .ok (portMap, exposed) =>
    .ok ({ containerConfig with exposedPorts := exposed },
         { hostConfig with portBindings := portMap })

/-- `handleValueFromEnvVars`: resolve one `ValueFrom` environment entry. Go
dereferences `env.ValueFrom` unconditionally, so a nil `ValueFrom` would
panic (the caller only passes non-nil ones). An absent key in the resource's
data map reads as `""`. -/
def handleValueFromEnvVars (converter : DockerAPIConverter)
    (containerConfig : ContainerConfig) (env : EnvVar) : GoRes ContainerConfig :=
  match env.valueFrom with
  | none => .panic
  | some valueFrom =>
    match valueFrom.configMapKeyRef with
    | some sel =>
      match converter.getConfigMap sel.name with
      | .error e => .err ("unable to get configmap " ++ sel.name ++ ": " ++ e)
      | .ok configMap =>
        .ok { containerConfig with env := containerConfig.env ++
          [env.name ++ "=" ++ goMapGet configMap.data sel.key] }
    | none =>
      match valueFrom.secretKeyRef with
      | some sel =>
        match converter.getSecret sel.name with
        | .error e => .err ("unable to get secret " ++ sel.name ++ ": " ++ e)
        | .ok secret =>
          .ok { containerConfig with env := containerConfig.env ++
            [env.name ++ "=" ++ goMapGet secret.data sel.key] }
      | none => .ok containerConfig

/-- `handleValueFromEnvFromSource`: expand every key of the referenced config
map or secret into one `"KEY=VALUE"` environment entry. -/
def handleValueFromEnvFromSource (converter : DockerAPIConverter)
    (containerConfig : ContainerConfig) (env : EnvFromSource) : GoRes ContainerConfig :=
  match env.configMapRef with
  | some name =>
    match converter.getConfigMap name with
    | .error e => .err ("unable to get configmap " ++ name ++ ": " ++ e)
    | .ok configMap =>
      .ok ({ containerConfig with env := (containerConfig.env ++
        configMap.data.map (fun kv => kv.1 ++ "=" ++ kv.2)) })
  | none =>
    match env.secretRef with
    | some name =>
      match converter.getSecret name with
      | .error e => .err ("unable to get secret " ++ name ++ ": " ++ e)
      | .ok secret =>
        .ok ({ containerConfig with env := (containerConfig.env ++
          secret.data.map (fun kv => kv.1 ++ "=" ++ kv.2)) })
    | none => .ok containerConfig

/-- The first loop of `setEnvVars`: literal entries append `"NAME=VALUE"`,
`ValueFrom` entries are resolved through `handleValueFromEnvVars`. -/
def setEnvVarsDirect (converter : DockerAPIConverter)
    (containerConfig : ContainerConfig) : List EnvVar → GoRes ContainerConfig
  | [] => .ok containerConfig
  | env :: rest =>
    match env.valueFrom with
    | some _ =>
      match handleValueFromEnvVars converter containerConfig env with
      | .err e => .err e
      | .panic => .panic
      | .ok cfg => setEnvVarsDirect converter cfg rest
    | none =>
      setEnvVarsDirect converter
        { containerConfig with env := containerConfig.env ++
          [env.name ++ "=" ++ env.value] } rest

/-- The second loop of `setEnvVars`, over the `EnvFrom` sources. -/
def setEnvVarsFrom (converter : DockerAPIConverter)
    (containerConfig : ContainerConfig) : List EnvFromSource → GoRes ContainerConfig
  | [] => .ok containerConfig
  | env :: rest =>
    match handleValueFromEnvFromSource converter containerConfig env with
    | .err e => .err e
    | .panic => .panic
    | .ok cfg => setEnvVarsFrom converter cfg rest

/-- `setEnvVars`: process the env list then the envFrom list, in order. -/
def setEnvVars (converter : DockerAPIConverter) (containerConfig : ContainerConfig)
    (envs : List EnvVar) (envFrom : List EnvFromSource) : GoRes ContainerConfig :=
  match setEnvVarsDirect converter containerConfig envs with
  | .err e => .err e
  | .panic => .panic
  | .ok cfg => setEnvVarsFrom converter cfg envFrom

/-- `setRestartPolicy`: total mapping with `"always"` as the default branch. -/
def setRestartPolicy (hostConfig : HostConfig) (restartPolicy : String) : HostConfig :=
  match restartPolicy with
  | "OnFailure" => { hostConfig with restartPolicyName := "on-failure" }
  | "Never" => { hostConfig with restartPolicyName := "no" }
  | _ => { hostConfig with restartPolicyName := "always" }

/-- `setCommandAndArgs`: a non-empty command replaces the entrypoint, a
non-empty args list replaces the command arguments. -/
def setCommandAndArgs (containerConfig : ContainerConfig)
    (command : List String) (args : List String) : ContainerConfig :=
  let cfg :=
    if command.length > 0 then { containerConfig with entrypoint := command }
    else containerConfig
  if args.length > 0 then { cfg with cmd := args } else cfg

/-- `setSecurityContext`: Go returns immediately when the pod-level security
context is nil, before ever looking at the container-level one; only when it
is non-nil are the user string and then the privileged flag considered. -/
def setSecurityContext (config : ContainerConfig) (hostConfig : HostConfig)
    (podSecurityContext : Option PodSecurityContext)
    (containerSecurityContext : Option SecurityContext) :
    ContainerConfig × HostConfig :=
  match podSecurityContext with
  | none => (config, hostConfig)
  | some podSC =>
    let config :=
      match podSC.runAsUser, podSC.runAsGroup with
      | some u, some g => { config with user := toString u ++ ":" ++ toString g }
      | _, _ => config
    match containerSecurityContext with
    | none => (config, hostConfig)
    | some containerSC =>
      match containerSC.privileged with
      | some b => (config, { hostConfig with privileged := b })
      | none => (config, hostConfig)

/- ### Volume resolution -/

/-- `handleVolumeSource`: resolve one matched (volume, mount) pair. The three
source kinds are checked in the order ConfigMap, Secret, HostPath. In the
Secret branch, when `GetSecretBinds` fails, the Go code formats the error
message with `volume.VolumeSource.ConfigMap.Name`; `ConfigMap` is nil on that
branch, so the dereference panics — the inner match mirrors that expression. -/
def handleVolumeSource (converter : DockerAPIConverter) (hostConfig : HostConfig)
    (volume : Volume) (volumeMount : VolumeMount) : GoRes HostConfig :=
  match volume.volumeSource.configMap with
  | some cmRef =>
    match converter.getConfigMap cmRef.name with
    | .error e => .err ("unable to get configmap " ++ cmRef.name ++ ": " ++ e)
    | .ok configMap =>
      match converter.getConfigMapBinds configMap with
      | .error e => .err ("unable to get binds for configmap " ++ cmRef.name ++ ": " ++ e)
      | .ok binds =>
        .ok ({ hostConfig with binds := (hostConfig.binds ++
          binds.map (fun p => p.2 ++ ":" ++ pathJoin volumeMount.mountPath p.1)) })
  | none =>
    match volume.volumeSource.secret with
    | some sRef =>
      match converter.getSecret sRef.secretName with
      | .error e => .err ("unable to get secret " ++ sRef.secretName ++ ": " ++ e)
      | .ok secret =>
        match converter.getSecretBinds secret with
        | .error e =>
          match volume.volumeSource.configMap with
          | some cmRef => .err ("unable to get binds for secrets " ++ cmRef.name ++ ": " ++ e)
          | none => .panic
        | .ok binds =>
          .ok ({ hostConfig with binds := (hostConfig.binds ++
            binds.map (fun p => p.2 ++ ":" ++ pathJoin volumeMount.mountPath p.1)) })
    | none =>
      match volume.volumeSource.hostPath with
      | some hp =>
        .ok ({ hostConfig with binds :=
          (hostConfig.binds ++ [hp.path ++ ":" ++ volumeMount.mountPath]) })
      | none => .ok hostConfig

/-- `setVolumeMounts`: the outer loop ranges over the declared volumes; for
each volume the inner loop finds the first volume mount with a matching name,
resolves it and then breaks out of the inner loop. -/
def setVolumeMounts (converter : DockerAPIConverter) (hostConfig : HostConfig)
    (volumes : List Volume) (volumeMounts : List VolumeMount) : GoRes HostConfig :=
  match volumes with
  | [] => .ok hostConfig
  | volume :: rest =>
    match volumeMounts.find? (fun m => m.name == volume.name) with
    | none => setVolumeMounts converter hostConfig rest volumeMounts
    | some volumeMount =>
      match handleVolumeSource converter hostConfig volume volumeMount with
      | .err e => .err e
      | .panic => .panic
      | .ok hc => setVolumeMounts converter hc rest volumeMounts

/- ### Forward converter -/

/-- `ConvertPodSpecToContainerConfiguration`: seed the configs, run the fixed
step sequence, and return the bundle. Go reads `spec.Containers[0]` before
anything else, which panics on an empty container list; every error return in
Go pairs the error with the zero value of ContainerConfiguration, a bundle
with no content, which the `err` constructor models. -/
def ConvertPodSpecToContainerConfiguration (converter : DockerAPIConverter)
    (spec : PodSpec) (labels : List (String × String)) : GoRes ContainerConfiguration :=
  match spec.containers with
  | [] => .panic
  | containerSpec :: _ =>
    let containerConfig : ContainerConfig := {
      image := containerSpec.image
      labels := labels
      env := ["KUBERNETES_SERVICE_HOST=" ++ converter.serverIpAddr,
              "KUBERNETES_SERVICE_PORT=" ++ toString converter.serverPort]
      entrypoint := []
      cmd := []
      exposedPorts := []
      user := "" }
    let hostConfig : HostConfig := {
      extraHosts := ["kubernetes.default.svc:" ++ converter.serverIpAddr]
      binds := []
      portBindings := []
      restartPolicyName := ""
      privileged := false
      resources := Resources.zero }
    match setServiceAccountTokenAndCACert converter hostConfig with
    | .err e => .err e
    | .panic => .panic
    | .ok hostConfig =>
      match setHostPorts containerConfig hostConfig containerSpec.ports with
      | .err e => .err e
      | .panic => .panic
      | .ok (containerConfig, hostConfig) =>
        match setEnvVars converter containerConfig containerSpec.env containerSpec.envFrom with
        | .err e => .err e
        | .panic => .panic
        | .ok containerConfig =>
          let containerConfig :=
            setCommandAndArgs containerConfig containerSpec.command containerSpec.args
          let hostConfig := setRestartPolicy hostConfig spec.restartPolicy
          let scResult :=
            setSecurityContext containerConfig hostConfig spec.securityContext
              containerSpec.securityContext
          let containerConfig := scResult.1
          let hostConfig := scResult.2
          let hostConfig := setResourceRequirements hostConfig containerSpec.resources
          match setVolumeMounts converter hostConfig spec.volumes containerSpec.volumeMounts with
          | .err e => .err e
          | .panic => .panic
          | .ok hostConfig =>
            .ok { containerConfig := containerConfig
                  hostConfig := hostConfig
                  networkEndpoints := [K2DNetworkName] }

/- ### Concrete instances used by witnesses and counterexamples -/

/-- An empty execution config (all fields at their zero values). -/
def containerConfig0 : ContainerConfig :=
  { image := "", labels := [], env := [], entrypoint := [], cmd := [],
    exposedPorts := [], user := "" }

/-- An empty host config (all fields at their zero values). -/
def hostConfig0 : HostConfig :=
  { extraHosts := [], binds := [], portBindings := [], restartPolicyName := "",
    privileged := false, resources := Resources.zero }

/-- A converter whose secret store finds every secret with no data and no
binds, and whose config-map store finds nothing. -/
def trivialStoresConverter : DockerAPIConverter :=
  { serverIpAddr := "10.0.0.1"
    serverPort := 6443
    getSecret := fun _ => .ok { data := [] }
    getSecretBinds := fun _ => .ok []
    getConfigMap := fun _ => .error "not found"
    getConfigMapBinds := fun _ => .error "not found" }

/-- A converter whose secret store reports every secret as missing. -/
def notFoundSecretConverter : DockerAPIConverter :=
  { trivialStoresConverter with getSecret := fun _ => .error "secret not found" }

/-- A converter whose secret store finds every secret but fails to enumerate
bind mappings for any of them. -/
def secretBindFailConverter : DockerAPIConverter :=
  { trivialStoresConverter with
    getSecret := fun _ => .ok { data := [] }
    getSecretBinds := fun _ => .error "bind failure" }

/-- A converter whose config-map store holds one config map named
`app-config` with a single entry. -/
def cmStoreConverter : DockerAPIConverter :=
  { trivialStoresConverter with
    getConfigMap := fun n =>
      if n == "app-config" then .ok { data := [("k1", "v1")] }
      else .error "not found" }

/-- A minimal container spec. -/
def basicContainer : KContainer :=
  { name := "c", image := "nginx", command := [], args := [], ports := [],
    env := [], envFrom := [], resources := { limits := none, requests := none },
    volumeMounts := [], securityContext := none }

/-- A spec whose only container asks for privileged mode while the pod-level
security context is absent. -/
def privilegedOnlySpec : PodSpec :=
  { containers := [{ basicContainer with
      securityContext := some { privileged := some true } }]
    volumes := [], restartPolicy := "", securityContext := none }

/-- A spec with a single plain container. -/
def oneContainerSpec : PodSpec :=
  { containers := [basicContainer], volumes := [], restartPolicy := "",
    securityContext := none }

/-- A spec with an empty container list. -/
def emptyContainersSpec : PodSpec :=
  { containers := [], volumes := [], restartPolicy := "", securityContext := none }

/-- A spec with two containers, identical except for the image. -/
def twoContainerSpec : PodSpec :=
  { containers := [basicContainer, { basicContainer with image := "redis" }]
    volumes := [], restartPolicy := "", securityContext := none }

/-- A host-path-backed volume named `v` pointing at `/h`. -/
def hostPathVolumeV : Volume :=
  { name := "v", volumeSource :=
    { configMap := none, secret := none, hostPath := some { path := "/h" } } }

/-- A secret-backed volume named `v` referencing the secret `my-secret`. -/
def secretVolumeV : Volume :=
  { name := "v", volumeSource :=
    { configMap := none, secret := some { secretName := "my-secret" },
      hostPath := none } }

/-- The spec scenario container: name `/web`, image `nginx`, created at
1700000000, in state `running`. -/
def webContainer : DockerContainer :=
  { names := ["/web"], image := "nginx", created := 1700000000,
    state := "running", id := "abc", labels := [] }

/-- A container descriptor whose names list is empty. -/
def noNamesContainer : DockerContainer :=
  { names := [], image := "img", created := 0, state := "running", id := "",
    labels := [] }

/-- Read the privileged flag of a successful conversion result. -/
def goResPrivileged : GoRes ContainerConfiguration → Option Bool
  | .ok bundle => some bundle.hostConfig.privileged
  | _ => none

/-- Read the bind list of a successful volume-mount resolution result. -/
def goResBinds : GoRes HostConfig → Option (List String)
  | .ok hc => some hc.binds
  | _ => none

/-- The `nat.Port` key a container port produces: `"<port>/<protocol>"`. -/
def portKey (p : ContainerPort) : String :=
  toString p.containerPort ++ "/" ++ p.protocol

/-- Well-formedness of one declared port: the protocol/port pair passes the
`nat.NewPort` validation and yields the expected key (equivalently, the
container port lies in the 16-bit range). -/
def portParsesOK (p : ContainerPort) : Prop :=
  newPort p.protocol (toString p.containerPort) = .ok (portKey p)

/-- Port well-formedness is decidable, so witnesses can be checked by
evaluation. -/
instance (p : ContainerPort) : Decidable (portParsesOK p) := by
  unfold portParsesOK
  infer_instance

/-- The ports of a list that the converter publishes: those with a non-zero
declared host port. -/
def publishedPorts (ports : List ContainerPort) : List ContainerPort :=
  ports.filter (fun p => p.hostPort != 0)

/- ### Claims -/

/-- C1, counterexample: a spec whose pod-level security context is absent but
whose container-level security context has Privileged set to true converts
(under stores that satisfy every lookup) to a bundle whose host config has
Privileged `false`, not `true` as the claim requires: `setSecurityContext`
returns as soon as the pod-level context is nil, before reading the
container-level one. -/
theorem C1_counterexample :
    goResPrivileged
      (ConvertPodSpecToContainerConfiguration trivialStoresConverter
        privilegedOnlySpec []) = some false := by
  rfl

/-- C1, amended: if the pod-level security context is absent the whole
security-context step is a no-op — in particular the container-level
privileged flag is not copied. When the pod-level context is present, the
user string is `"<uid>:<gid>"` exactly when both run-as-user and run-as-group
are supplied (unchanged otherwise), and the privileged flag is copied
verbatim exactly when the container-level context supplies it (unchanged
otherwise); no combination is an error. -/
theorem C1_amended :
    (∀ (cfg : ContainerConfig) (hc : HostConfig) (csc : Option SecurityContext),
      setSecurityContext cfg hc none csc = (cfg, hc)) ∧
    (∀ (cfg : ContainerConfig) (hc : HostConfig) (podSC : PodSecurityContext)
        (csc : Option SecurityContext),
      (setSecurityContext cfg hc (some podSC) csc).1.user =
        (match podSC.runAsUser, podSC.runAsGroup with
         | some u, some g => toString u ++ ":" ++ toString g
         | _, _ => cfg.user)) ∧
    (∀ (cfg : ContainerConfig) (hc : HostConfig) (podSC : PodSecurityContext)
        (csc : Option SecurityContext),
      (setSecurityContext cfg hc (some podSC) csc).2.privileged =
        (match csc with
         | some c =>
           (match c.privileged with
            | some b => b
            | none => hc.privileged)
         | none => hc.privileged)) := by
  refine ⟨fun cfg hc csc => rfl, fun cfg hc podSC csc => ?_, fun cfg hc podSC csc => ?_⟩
  · rcases podSC with ⟨u, g⟩
    rcases u with _ | u <;> rcases g with _ | g <;>
      rcases csc with _ | ⟨_ | b⟩ <;> rfl
  · rcases podSC with ⟨u, g⟩
    rcases u with _ | u <;> rcases g with _ | g <;>
      rcases csc with _ | ⟨_ | b⟩ <;> rfl

/-- C3: the code is wrong where the claim is right. For a secret-backed
volume whose secret is found but whose bind enumeration fails, the Go code
formats the error with `volume.VolumeSource.ConfigMap.Name`; on that branch
the ConfigMap pointer is nil, so the conversion panics instead of returning
an error wrapped with the secret's name. -/
theorem C3_bug_eval :
    handleVolumeSource secretBindFailConverter hostConfig0 secretVolumeV
      { name := "v", mountPath := "/m" } = .panic := by
  rfl

/-- C5, counterexample: an input with the CPU request absent and an input
with the CPU request explicitly zero produce identical host configs — the
output resource fields are plain integers whose unset state is 0, so
"absent" and "zero" are conflated, contrary to the claim. -/
theorem C5_counterexample :
    setResourceRequirements hostConfig0
      { limits := none, requests := some [("cpu", { milliValue := 0, value := 0 })] } =
    setResourceRequirements hostConfig0 { limits := none, requests := none } := by
  rfl

/-- C5, amended: present entries map as the claim states with 64-bit
semantics (request-CPU to its milli-value as shares, request-memory to bytes
as soft reservation, limit-CPU to its milli-value times 1,000,000 wrapped to
the signed 64-bit range as nano-CPUs, limit-memory to bytes as hard
ceiling), and unrecognized resource names are ignored, but absence is
encoded as the value 0, so an absent request/limit and an explicitly zero
one yield the same output. -/
theorem C5_amended :
    (∀ hc : HostConfig,
      setResourceRequirements hc { limits := none, requests := none } =
        { hc with resources := Resources.zero }) ∧
    (∀ (hc : HostConfig) (cq mq lcq lmq : Quantity),
      setResourceRequirements hc
        { requests := some [("cpu", cq), ("memory", mq)]
          limits := some [("cpu", lcq), ("memory", lmq)] } =
        { hc with resources :=
          { cpuShares := cq.milliValue
            memory := lmq.value
            nanoCPUs := int64Wrap (lcq.milliValue * 1000000)
            memoryReservation := mq.value } }) ∧
    (∀ hc : HostConfig,
      setResourceRequirements hc
        { limits := none, requests := some [("cpu", { milliValue := 0, value := 0 })] } =
      setResourceRequirements hc { limits := none, requests := none }) ∧
    (∀ (hc : HostConfig) (pre post : List (String × Quantity)) (nm : String)
        (q : Quantity) (lims : Option (List (String × Quantity))),
      nm ≠ "cpu" → nm ≠ "memory" →
      setResourceRequirements hc
        { requests := some (pre ++ (nm, q) :: post), limits := lims } =
      setResourceRequirements hc { requests := some (pre ++ post), limits := lims }) ∧
    (∀ (hc : HostConfig) (pre post : List (String × Quantity)) (nm : String)
        (q : Quantity) (reqs : Option (List (String × Quantity))),
      nm ≠ "cpu" → nm ≠ "memory" →
      setResourceRequirements hc
        { requests := reqs, limits := some (pre ++ (nm, q) :: post) } =
      setResourceRequirements hc { requests := reqs, limits := some (pre ++ post) }) := by
  refine ⟨fun _hc => rfl, fun _hc _cq _mq _lcq _lmq => rfl, fun _hc => rfl, ?_, ?_⟩
  · intro hc pre post nm q lims h1 h2
    unfold setResourceRequirements
    simp [List.foldl_append, h1, h2]
  · intro hc pre post nm q reqs h1 h2
    unfold setResourceRequirements
    simp [List.foldl_append, h1, h2]

/-- Witness for C5 amended: a request entry under the unrecognized name
`storage` is ignored — the output equals the one without that entry. -/
theorem C5_amended_witness :
    ("storage" ≠ "cpu") ∧ ("storage" ≠ "memory") ∧
    setResourceRequirements hostConfig0
      { requests := some ([("cpu", { milliValue := 250, value := 1 })] ++
          ("storage", { milliValue := 5, value := 7 }) :: []), limits := none } =
    setResourceRequirements hostConfig0
      { requests := some ([("cpu", { milliValue := 250, value := 1 })] ++ [])
        limits := none } :=
  ⟨by decide, by decide,
   C5_amended.2.2.2.1 hostConfig0 [("cpu", { milliValue := 250, value := 1 })]
     [] "storage" { milliValue := 5, value := 7 } none (by decide) (by decide)⟩

/-- C9, counterexample: on a container descriptor with an empty names list
the reverse converter does not produce an observation — Go indexes
`container.Names[0]` and panics — refuting "never fails, including one whose
names list is empty". -/
theorem C9_counterexample : ConvertContainerToPod noNamesContainer = none := by
  rfl

/-- C9, amended: for every container descriptor whose names list is
non-empty the reverse converter totally produces a pod status observation,
with no error path; an empty names list panics. -/
theorem C9_amended (c : DockerContainer) (h : c.names ≠ []) :
    ∃ p, ConvertContainerToPod c = some p := by
  rcases hn : c.names with _ | ⟨n0, rest⟩
  · exact absurd hn h
  · unfold ConvertContainerToPod
    rw [hn]
    dsimp only
    split
    · exact ⟨_, rfl⟩
    · exact ⟨_, rfl⟩

/-- Witness for C9 amended at the `/web` scenario container. -/
theorem C9_amended_witness :
    webContainer.names ≠ [] ∧ ∃ p, ConvertContainerToPod webContainer = some p :=
  ⟨by decide, C9_amended webContainer (by decide)⟩

/-- C10: the forward conversion panics on an empty container list (the first
container is indexed before any other step), and on a non-empty list the
result coincides with converting the spec restricted to its first container —
all additional containers are ignored. -/
theorem C10_first_container (conv : DockerAPIConverter) (spec : PodSpec)
    (labels : List (String × String)) :
    (spec.containers = [] →
      ConvertPodSpecToContainerConfiguration conv spec labels = .panic) ∧
    (∀ (c : KContainer) (rest : List KContainer), spec.containers = c :: rest →
      ConvertPodSpecToContainerConfiguration conv spec labels =
        ConvertPodSpecToContainerConfiguration conv
          { spec with containers := [c] } labels) := by
  constructor
  · intro h
    unfold ConvertPodSpecToContainerConfiguration
    rw [h]
  · intro c rest h
    unfold ConvertPodSpecToContainerConfiguration
    rw [h]

/-- Witness for C10: the empty-container spec panics, and the two-container
spec converts exactly as its first-container restriction does. -/
theorem C10_first_container_witness :
    (emptyContainersSpec.containers = [] ∧
      ConvertPodSpecToContainerConfiguration trivialStoresConverter
        emptyContainersSpec [] = .panic) ∧
    (twoContainerSpec.containers =
        basicContainer :: [{ basicContainer with image := "redis" }] ∧
      ConvertPodSpecToContainerConfiguration trivialStoresConverter
        twoContainerSpec [] =
      ConvertPodSpecToContainerConfiguration trivialStoresConverter
        { twoContainerSpec with containers := [basicContainer] } []) :=
  ⟨⟨rfl, (C10_first_container trivialStoresConverter emptyContainersSpec []).1 rfl⟩,
   ⟨rfl, (C10_first_container trivialStoresConverter twoContainerSpec []).2
      basicContainer [{ basicContainer with image := "redis" }] rfl⟩⟩

/-- C2, counterexample: with one declared host-path volume `v` and two volume
mounts both referencing `v`, the claim requires one bind per matching mount
(two binds); the code emits a single bind — the outer loop ranges over
volumes and breaks after the first matching mount. -/
theorem C2_counterexample :
    goResBinds (setVolumeMounts trivialStoresConverter hostConfig0
      [hostPathVolumeV]
      [{ name := "v", mountPath := "/a" }, { name := "v", mountPath := "/b" }]) =
    some ["/h:/a"] := by
  rfl

/-- C2, amended: binds are emitted per declared volume, not per mount — for
each declared volume, in declaration order, the first volume mount whose name
matches it contributes a bind (for host-path-backed volumes, the single bind
`"<hostPath>:<mountPath>"`); later mounts referencing the same volume
contribute nothing, a volume with no matching mount contributes nothing, and
a mount naming a non-existent volume produces no bind and no error (and a
duplicated volume name emits once per duplicate, not once). -/
theorem C2_amended (conv : DockerAPIConverter) (hc : HostConfig)
    (volumes : List Volume) (mounts : List VolumeMount)
    (hsrc : ∀ v ∈ volumes,
      v.volumeSource.configMap = none ∧ v.volumeSource.secret = none) :
    setVolumeMounts conv hc volumes mounts =
      .ok { hc with binds := hc.binds ++ volumes.filterMap (fun v =>
        (mounts.find? (fun m => m.name == v.name)).bind (fun m =>
          v.volumeSource.hostPath.map (fun hp =>
            hp.path ++ ":" ++ m.mountPath))) } := by
  induction volumes generalizing hc with
  | nil => simp [setVolumeMounts]
  | cons v rest ih =>
    obtain ⟨hcm, hsec⟩ := hsrc v (List.mem_cons_self _ _)
    have hrest : ∀ w ∈ rest,
        w.volumeSource.configMap = none ∧ w.volumeSource.secret = none :=
      fun w hw => hsrc w (List.mem_cons_of_mem _ hw)
    unfold setVolumeMounts
    rcases hfind : mounts.find? (fun m => m.name == v.name) with _ | m
    · rw [ih hc hrest]
      simp [List.filterMap_cons, hfind]
    · unfold handleVolumeSource
      rw [hcm, hsec]
      rcases hhp : v.volumeSource.hostPath with _ | hp
      · simp [List.filterMap_cons, hfind, hhp]
        exact ih hc hrest
      · simp [List.filterMap_cons, hfind, hhp]
        rw [ih _ hrest]
        simp [List.append_assoc]

/-- Witness for C2 amended: one host-path volume and one matching mount
produce exactly the bind the characterization predicts. -/
theorem C2_amended_witness :
    (∀ v ∈ [hostPathVolumeV],
      v.volumeSource.configMap = none ∧ v.volumeSource.secret = none) ∧
    setVolumeMounts trivialStoresConverter hostConfig0 [hostPathVolumeV]
      [{ name := "v", mountPath := "/a" }] =
      .ok { hostConfig0 with binds := hostConfig0.binds ++
        [hostPathVolumeV].filterMap (fun v =>
          (([{ name := "v", mountPath := "/a" }] :
              List VolumeMount).find? (fun m => m.name == v.name)).bind (fun m =>
            v.volumeSource.hostPath.map (fun hp =>
              hp.path ++ ":" ++ m.mountPath))) } :=
  ⟨by decide,
   C2_amended trivialStoresConverter hostConfig0 [hostPathVolumeV]
     [{ name := "v", mountPath := "/a" }] (by decide)⟩

/-- C4: forward conversion aborts atomically when the well-known
service-account secret lookup fails: for every converter, spec (with at
least one container) and label set, the result is exactly the wrapped
lookup error — a bare error with no configuration bundle attached (Go
returns the zero-valued bundle alongside it) — independent of the spec's
ports, environment and volumes and of every other store operation, so no
port, environment or volume resolution step influences the outcome. -/
theorem C4_atomic_abort (conv : DockerAPIConverter) (spec : PodSpec)
    (labels : List (String × String)) (c : KContainer) (rest : List KContainer)
    (e : String) (hc : spec.containers = c :: rest)
    (hs : conv.getSecret K2dServiceAccountSecretName = .error e) :
    ConvertPodSpecToContainerConfiguration conv spec labels =
      .err ("unable to get secret " ++ K2dServiceAccountSecretName ++ ": " ++ e) := by
  unfold ConvertPodSpecToContainerConfiguration
  rw [hc]
  unfold setServiceAccountTokenAndCACert
  rw [hs]

/-- Witness for C4 at a concrete failing store and single-container spec. -/
theorem C4_atomic_abort_witness :
    oneContainerSpec.containers = [basicContainer] ∧
    notFoundSecretConverter.getSecret K2dServiceAccountSecretName =
      .error "secret not found" ∧
    ConvertPodSpecToContainerConfiguration notFoundSecretConverter
      oneContainerSpec [] =
      .err ("unable to get secret " ++ K2dServiceAccountSecretName ++ ": " ++
        "secret not found") :=
  ⟨rfl, rfl,
   C4_atomic_abort notFoundSecretConverter oneContainerSpec [] basicContainer []
     "secret not found" rfl rfl⟩

/-- C6: the reverse converter maps lifecycle state exactly as claimed — state
`"running"` yields phase Running with a single container status having Ready
true, Started true and a running-state timestamp equal to the container's
creation time; every other state yields phase Unknown with none of those set;
the pod name is the container name with one leading `/` stripped; and the
restart count is zero in every case. -/
theorem C6_reverse_mapping (c : DockerContainer) (n : String)
    (rest : List String) (h : c.names = n :: rest) :
    ∃ p, ConvertContainerToPod c = some p ∧
      p.name = trimPrefixGo n "/" ∧
      (c.state = "running" →
        p.phase = PodPhase.running ∧
        p.containerStatuses = [{
          name := trimPrefixGo n "/"
          containerID := c.id
          restartCount := 0
          ready := true
          started := some true
          runningStartedAt := some c.created }]) ∧
      (c.state ≠ "running" →
        p.phase = PodPhase.unknown ∧
        p.containerStatuses = [{
          name := trimPrefixGo n "/"
          containerID := c.id
          restartCount := 0
          ready := false
          started := none
          runningStartedAt := none }]) := by
  unfold ConvertContainerToPod
  rw [h]
  by_cases hs : c.state = "running"
  · simp only [hs, beq_self_eq_true, if_true]
    exact ⟨_, rfl, rfl, fun _ => ⟨rfl, rfl⟩, fun hn => absurd rfl hn⟩
  · have hb : (c.state == "running") = false := by
      simpa using hs
    simp only [hb, Bool.false_eq_true, if_false]
    exact ⟨_, rfl, rfl, fun he => absurd he hs, fun _ => ⟨rfl, rfl⟩⟩

/-- Witness for C6 at the spec scenario: container `/web`, image `nginx`,
created at 1700000000, state `running`. -/
theorem C6_reverse_mapping_witness :
    webContainer.names = "/web" :: [] ∧
    ∃ p, ConvertContainerToPod webContainer = some p ∧
      p.name = trimPrefixGo "/web" "/" ∧
      (webContainer.state = "running" →
        p.phase = PodPhase.running ∧
        p.containerStatuses = [{
          name := trimPrefixGo "/web" "/"
          containerID := webContainer.id
          restartCount := 0
          ready := true
          started := some true
          runningStartedAt := some webContainer.created }]) ∧
      (webContainer.state ≠ "running" →
        p.phase = PodPhase.unknown ∧
        p.containerStatuses = [{
          name := trimPrefixGo "/web" "/"
          containerID := webContainer.id
          restartCount := 0
          ready := false
          started := none
          runningStartedAt := none }]) :=
  ⟨rfl, C6_reverse_mapping webContainer "/web" [] rfl⟩

/-- C8: for an indirect environment entry referencing a config-map or secret
key, a missing resource aborts the conversion with an error naming that
resource, while a present resource with the referenced key absent from its
data resolves the entry to `"NAME="` (the empty-string value) without
error. -/
theorem C8_env_indirect :
    (∀ (conv : DockerAPIConverter) (cfg : ContainerConfig)
        (nm vl rname key : String) (sk : Option KeySelector) (e : String),
      conv.getConfigMap rname = .error e →
      handleValueFromEnvVars conv cfg
        { name := nm
          value := vl
          valueFrom := some { configMapKeyRef := some { name := rname, key := key }
                              secretKeyRef := sk } } =
        .err ("unable to get configmap " ++ rname ++ ": " ++ e)) ∧
    (∀ (conv : DockerAPIConverter) (cfg : ContainerConfig)
        (nm vl rname key : String) (sk : Option KeySelector) (cm : ConfigMap),
      conv.getConfigMap rname = .ok cm →
      cm.data.find? (fun p => p.1 == key) = none →
      handleValueFromEnvVars conv cfg
        { name := nm
          value := vl
          valueFrom := some { configMapKeyRef := some { name := rname, key := key }
                              secretKeyRef := sk } } =
        .ok { cfg with env := cfg.env ++ [nm ++ "="] }) ∧
    (∀ (conv : DockerAPIConverter) (cfg : ContainerConfig)
        (nm vl rname key e : String),
      conv.getSecret rname = .error e →
      handleValueFromEnvVars conv cfg
        { name := nm
          value := vl
          valueFrom := some { configMapKeyRef := none
                              secretKeyRef := some { name := rname, key := key } } } =
        .err ("unable to get secret " ++ rname ++ ": " ++ e)) ∧
    (∀ (conv : DockerAPIConverter) (cfg : ContainerConfig)
        (nm vl rname key : String) (sec : Secret),
      conv.getSecret rname = .ok sec →
      sec.data.find? (fun p => p.1 == key) = none →
      handleValueFromEnvVars conv cfg
        { name := nm
          value := vl
          valueFrom := some { configMapKeyRef := none
                              secretKeyRef := some { name := rname, key := key } } } =
        .ok { cfg with env := cfg.env ++ [nm ++ "="] }) := by
  refine ⟨?_, ?_, ?_, ?_⟩
  · intro conv cfg nm vl rname key sk e hst
    unfold handleValueFromEnvVars
    dsimp only
    rw [hst]
  · intro conv cfg nm vl rname key sk cm hst hkey
    unfold handleValueFromEnvVars
    dsimp only
    rw [hst]
    simp [goMapGet, hkey, String.append_empty]
  · intro conv cfg nm vl rname key e hst
    unfold handleValueFromEnvVars
    dsimp only
    rw [hst]
  · intro conv cfg nm vl rname key sec hst hkey
    unfold handleValueFromEnvVars
    dsimp only
    rw [hst]
    simp [goMapGet, hkey, String.append_empty]

/-- Witness for C8: a config-map store holding `app-config` with key `k1`:
reading the absent key `missing` resolves to `"X="`, and referencing the
absent config map `absent` fails with an error naming it. -/
theorem C8_env_indirect_witness :
    cmStoreConverter.getConfigMap "app-config" = .ok { data := [("k1", "v1")] } ∧
    (([("k1", "v1")] : List (String × String)).find? (fun p => p.1 == "missing")
      = none) ∧
    handleValueFromEnvVars cmStoreConverter containerConfig0
      { name := "X"
        value := ""
        valueFrom := some { configMapKeyRef := some { name := "app-config", key := "missing" }
                            secretKeyRef := none } } =
      .ok { containerConfig0 with env := containerConfig0.env ++ ["X="] } ∧
    cmStoreConverter.getConfigMap "absent" = .error "not found" ∧
    handleValueFromEnvVars cmStoreConverter containerConfig0
      { name := "Y"
        value := ""
        valueFrom := some { configMapKeyRef := some { name := "absent", key := "k" }
                            secretKeyRef := none } } =
      .err ("unable to get configmap " ++ "absent" ++ ": " ++ "not found") :=
  ⟨rfl, rfl,
   C8_env_indirect.2.1 cmStoreConverter containerConfig0 "X" "" "app-config"
     "missing" none { data := [("k1", "v1")] } rfl rfl,
   rfl,
   C8_env_indirect.1 cmStoreConverter containerConfig0 "Y" "" "absent" "k" none
     "not found" rfl⟩

/-- Go map assignment adds a fresh key at the end. -/
theorem mapAssign_of_fresh {α : Type} (m : List (String × α)) (k : String)
    (v : α) (h : k ∉ m.map Prod.fst) : mapAssign m k v = m ++ [(k, v)] := by
  have hf : m.find? (fun p => p.1 == k) = none := by
    rw [List.find?_eq_none]
    intro x hx
    simp only [beq_iff_eq]
    intro hxk
    exact h (hxk ▸ List.mem_map_of_mem Prod.fst hx)
  simp [mapAssign, hf]

/-- Go set insertion adds a fresh key at the end. -/
theorem setInsert_of_fresh (s : List String) (k : String) (h : k ∉ s) :
    setInsert s k = s ++ [k] := by
  have hc : s.contains k = false := by
    simp [h]
  simp [setInsert, hc, h]

/-- Characterization of the `setHostPorts` loop: starting from accumulators
whose keys are disjoint from the published ports' keys, the loop appends one
map entry and one exposed key per published port, in order. -/
theorem setHostPortsLoop_spec (ports : List ContainerPort)
    (pm : List (String × List PortBinding)) (ex : List String)
    (hwf : ∀ p ∈ ports, p.hostPort ≠ 0 → portParsesOK p)
    (hnd : ((publishedPorts ports).map portKey).Nodup)
    (hpm : ∀ p ∈ publishedPorts ports, portKey p ∉ pm.map Prod.fst)
    (hex : ∀ p ∈ publishedPorts ports, portKey p ∉ ex) :
    setHostPortsLoop pm ex ports =
      .ok (pm ++ (publishedPorts ports).map (fun p =>
            (portKey p, [{ hostIP := "0.0.0.0", hostPort := toString p.hostPort }])),
           ex ++ (publishedPorts ports).map portKey) := by
  induction ports generalizing pm ex with
  | nil => simp [setHostPortsLoop, publishedPorts]
  | cons p rest ih =>
    rcases eq_or_ne p.hostPort 0 with hz | hz
    · have hpub : publishedPorts (p :: rest) = publishedPorts rest := by
        simp [publishedPorts, List.filter_cons, hz]
      rw [hpub] at hnd hpm hex
      unfold setHostPortsLoop
      rw [if_neg (fun hne => hne hz)]
      rw [hpub]
      exact ih pm ex (fun q hq hqz => hwf q (List.mem_cons_of_mem _ hq) hqz) hnd hpm hex
    · have hpub : publishedPorts (p :: rest) = p :: publishedPorts rest := by
        simp [publishedPorts, List.filter_cons, hz]
      have hkey : newPort p.protocol (toString p.containerPort) = .ok (portKey p) :=
        hwf p (List.mem_cons_self _ _) hz
      rw [hpub] at hnd hpm hex
      have hnd2 := List.nodup_cons.mp hnd
      unfold setHostPortsLoop
      rw [if_pos hz, hkey]
      dsimp only
      rw [mapAssign_of_fresh _ _ _ (hpm p (List.mem_cons_self _ _)),
        setInsert_of_fresh _ _ (hex p (List.mem_cons_self _ _))]
      rw [ih _ _ (fun q hq hqz => hwf q (List.mem_cons_of_mem _ hq) hqz) hnd2.2
        (fun q hq => by
          simp only [List.map_append, List.mem_append]
          rintro (hin | hin)
          · exact hpm q (List.mem_cons_of_mem _ hq) hin
          · simp only [List.map_cons, List.map_nil, List.mem_singleton] at hin
            exact hnd2.1 (hin ▸ List.mem_map_of_mem portKey hq))
        (fun q hq => by
          simp only [List.mem_append, List.mem_singleton]
          rintro (hin | hin)
          · exact hex q (List.mem_cons_of_mem _ hq) hin
          · exact hnd2.1 (hin ▸ List.mem_map_of_mem portKey hq))]
      rw [hpub]
      simp [List.append_assoc]

/-- C7: for a well-formed port list (each published protocol/port pair passes
the port parse and the published keys are pairwise distinct), each declared
port with non-zero host port P, container port C and protocol proto yields
exactly one exposed-port entry keyed `"C/proto"` and exactly one binding from
that key to host address 0.0.0.0 and host port P, in declaration order; ports
with zero host port contribute nothing, so with no non-zero host ports the
port bindings are empty. -/
theorem C7_host_ports (cfg : ContainerConfig) (hc : HostConfig)
    (ports : List ContainerPort)
    (hwf : ∀ p ∈ ports, p.hostPort ≠ 0 → portParsesOK p)
    (hnd : ((publishedPorts ports).map portKey).Nodup) :
    setHostPorts cfg hc ports =
      .ok ({ cfg with exposedPorts := (publishedPorts ports).map portKey },
           { hc with portBindings := (publishedPorts ports).map (fun p =>
              (portKey p, [{ hostIP := "0.0.0.0", hostPort := toString p.hostPort }])) }) := by
  unfold setHostPorts
  rw [setHostPortsLoop_spec ports [] [] hwf hnd (by simp) (by simp)]
  simp

/-- Witness for C7: ports (host 8080, container 80, TCP) and (host 0,
container 9, UDP) expose exactly `"80/TCP"` bound to 0.0.0.0:8080, with the
zero-host-port entry contributing nothing. -/
theorem C7_host_ports_witness :
    (∀ p ∈ [ContainerPort.mk 8080 80 "TCP", ContainerPort.mk 0 9 "UDP"],
      p.hostPort ≠ 0 → portParsesOK p) ∧
    ((publishedPorts [ContainerPort.mk 8080 80 "TCP",
      ContainerPort.mk 0 9 "UDP"]).map portKey).Nodup ∧
    setHostPorts containerConfig0 hostConfig0
      [ContainerPort.mk 8080 80 "TCP", ContainerPort.mk 0 9 "UDP"] =
      .ok ({ containerConfig0 with exposedPorts :=
              (publishedPorts [ContainerPort.mk 8080 80 "TCP",
                ContainerPort.mk 0 9 "UDP"]).map portKey },
           { hostConfig0 with portBindings :=
              (publishedPorts [ContainerPort.mk 8080 80 "TCP",
                ContainerPort.mk 0 9 "UDP"]).map (fun p =>
                (portKey p, [{ hostIP := "0.0.0.0", hostPort := toString p.hostPort }])) }) :=
  ⟨by decide, by decide,
   C7_host_ports containerConfig0 hostConfig0
     [ContainerPort.mk 8080 80 "TCP", ContainerPort.mk 0 9 "UDP"]
     (by decide) (by decide)⟩
